import Mathlib

/-!
Verification development for the `ssh-terminal-manager` repository.

The development shallowly embeds the two algorithmic cores of the
repository:

* the session state machine of `src/ssh_terminal_manager/state.py`
  together with the transition entry points of
  `src/ssh_terminal_manager/manager.py` and the connect/disconnect logic
  of `src/ssh_terminal_manager/ssh.py`;
* the interactive-shell protocol parser `ShellParser` of
  `src/ssh_terminal_manager/ssh.py` (the final six-field variant).

Python wall-clock time (`time.time()`) is threaded explicitly as an
integer parameter `now`; machine integers do not occur (Python ints are
unbounded).  Change notifications (`Event.notify` fired from
`State.__setattr__`) are modelled by a counter of emitted events.
-/

/-! ## The session state machine (`state.py`) -/

/-- Request kinds, from `class Request(StrEnum)` in `state.py`. -/
inductive Request where
  | turn_on
  | turn_off
  | restart
  | connect
deriving DecidableEq, Repr

/-- Timeout table `TIMEOUTS = {"turn_on": 60, "turn_off": 30, "restart": 30,
"connect": 30}` from `state.py`. -/
def TIMEOUTS : Request → Int
  | .turn_on => 60
  | .turn_off => 30
  | .restart => 30
  | .connect => 30

/-- The observable state of `class State` in `state.py`: the four fields of
`STATE_NAMES`, the private request timestamp `_request_timestamp`, and a
counter of change notifications emitted through `on_change.notify` (the
source fires one notification per effective change of a `STATE_NAMES`
field in `__setattr__`). -/
structure State where
  online : Bool
  connected : Bool
  request : Option Request
  error : Bool
  requestTimestamp : Int
  notifications : Nat
deriving DecidableEq, Repr

/-- Assignment `self.online = v`, routed through `State.__setattr__`: the
field is always written; when the value actually changes, a change
notification is emitted. -/
def State.setOnline (s : State) (v : Bool) : State :=
  if v = s.online then { s with online := v }
  else { s with online := v, notifications := s.notifications + 1 }

/-- Assignment `self.connected = v`, routed through `State.__setattr__`. -/
def State.setConnected (s : State) (v : Bool) : State :=
  if v = s.connected then { s with connected := v }
  else { s with connected := v, notifications := s.notifications + 1 }

/-- Assignment `self.error = v`, routed through `State.__setattr__`. -/
def State.setError (s : State) (v : Bool) : State :=
  if v = s.error then { s with error := v }
  else { s with error := v, notifications := s.notifications + 1 }

/-- Assignment `self.request = v`, routed through `State.__setattr__`: on an
effective change the source additionally resets `_request_timestamp` to
`time()` (the current time `now`) before notifying. -/
def State.setRequest (s : State) (now : Int) (v : Option Request) : State :=
  if v = s.request then { s with request := v }
  else { s with request := v, requestTimestamp := now,
                notifications := s.notifications + 1 }

/-- Initial state built by `State.__init__`: the class-level defaults
`online = connected = error = False`, `request = None`, with
`_request_timestamp = time()` (the construction time `t0`). -/
def initState (t0 : Int) : State :=
  { online := false, connected := false, request := none, error := false,
    requestTimestamp := t0, notifications := 0 }

/-- Transition `State.handle_update` of `state.py`: return unless a request
is pending; clear the request when `time() - self._request_timestamp >
TIMEOUTS[self.request]`. -/
def State.handle_update (s : State) (now : Int) : State :=
  match s.request with
  | none => s
  | some r =>
      if now - s.requestTimestamp > TIMEOUTS r then s.setRequest now none
      else s

/-- Effect on the state of `SSHManager.disconnect` (`manager.py`): return if
not connected, otherwise `self._ssh.disconnect()` (which performs
`self._state.connected = False`) followed by `self.state.handle_disconnect()`
(which assigns `connected = False` again, a no-op the second time). -/
def managerDisconnectState (s : State) : State :=
  if s.connected = false then s
  else (s.setConnected false).setConnected false

/-- Transition `State.handle_ping_error` of `state.py`.  The call
`self._manager.disconnect()` is the state effect `managerDisconnectState`
(its `reset_commands` companion touches only cached sensor commands, which
live outside the state). -/
def State.handle_ping_error (s : State) (now : Int) : State :=
  let s1 := if s.connected then managerDisconnectState s else s
  let s2 := if s1.request = some .turn_off then s1.setRequest now none else s1
  let s3 := if s2.request = some .restart then s2.setRequest now (some .turn_on) else s2
  s3.setOnline false

/-- Transition `State.handle_ping_success` of `state.py`. -/
def State.handle_ping_success (s : State) (now : Int) : State :=
  let s1 := if s.request = some .turn_on then s.setRequest now (some .connect) else s
  s1.setOnline true

/-- Transition `State.handle_auth_error` of `state.py`
(`reset_commands` is external to the state). -/
def State.handle_auth_error (s : State) : State :=
  s.setError true

/-- Transition `State.handle_connect_error` of `state.py`: only
`reset_commands`, no state field changes. -/
def State.handle_connect_error (s : State) : State :=
  s

/-- Transition `State.handle_connect_success` of `state.py`. -/
def State.handle_connect_success (s : State) (now : Int) : State :=
  let s1 := if s.request = some .connect then s.setRequest now none else s
  (s1.setConnected true).setError false

/-- Transition `State.handle_disconnect` of `state.py`. -/
def State.handle_disconnect (s : State) : State :=
  s.setConnected false

/-- Transition `State.handle_execute_error` of `state.py`: only
`reset_commands`, no state field changes. -/
def State.handle_execute_error (s : State) : State :=
  s

/-- Transition `State.handle_turn_on` of `state.py`. -/
def State.handle_turn_on (s : State) (now : Int) : State :=
  s.setRequest now (some .turn_on)

/-- Transition `State.handle_turn_off` of `state.py`. -/
def State.handle_turn_off (s : State) (now : Int) : State :=
  s.setRequest now (some .turn_off)

/-- Transition `State.handle_restart` of `state.py`. -/
def State.handle_restart (s : State) (now : Int) : State :=
  s.setRequest now (some .restart)

/-- Property `SSHManager.is_shutting_down` (`manager.py`):
`self.state.request in [Request.TURN_OFF, Request.RESTART]`. -/
def isShuttingDown (s : State) : Bool :=
  s.request = some Request.turn_off ∨ s.request = some Request.restart

/-! ## Manager-boundary events (`manager.py`)

Each constructor is one outcome-carrying call at the `SSHManager`
boundary; its step function mirrors the guards the manager performs
before invoking the corresponding `State.handle_*` transition.  Events
whose Python counterpart raises before touching the state (offline
connect, shutting-down connect, missing MAC address on turn-on, a failed
turn-off/restart action) leave the state unchanged, which the guards
below reproduce. -/

/-- Events at the `SSHManager` boundary, each carrying the wall-clock time
`now` at which it fires where the transition can consult the clock. -/
inductive Event where
  | pingSuccess (now : Int)
  | pingError (now : Int)
  | connectSuccess (now : Int)
  | connectAuthError
  | connectTransportError
  | disconnect
  | executeError
  | turnOn (now : Int)
  | turnOff (now : Int)
  | restart (now : Int)
  | update (now : Int)
  | close
deriving DecidableEq, Repr

/-- Guards of `SSHManager.async_connect` (`manager.py`): return if already
connected; raise if offline or shutting down; only then run the SSH
connect attempt and dispatch on its outcome. -/
def connectGuard (s : State) : Bool :=
  s.connected = false ∧ s.online = true ∧ isShuttingDown s = false

/-- One step of the manager boundary: the state effect of each event. -/
def step (e : Event) (s : State) : State :=
  match e with
  | .pingSuccess now => s.handle_ping_success now
  | .pingError now => s.handle_ping_error now
  | .connectSuccess now =>
      if connectGuard s then s.handle_connect_success now else s
  | .connectAuthError =>
      if connectGuard s then s.handle_auth_error else s
  | .connectTransportError =>
      if connectGuard s then s.handle_connect_error else s
  | .disconnect => managerDisconnectState s
  | .executeError => s.handle_execute_error
  | .turnOn now => if s.online then s else s.handle_turn_on now
  | .turnOff now => (managerDisconnectState s).handle_turn_off now
  | .restart now => (managerDisconnectState s).handle_restart now
  | .update now => s.handle_update now
  | .close => (managerDisconnectState s).setOnline false

/-- Run a sequence of manager-boundary events from a state. -/
def run (evs : List Event) (s : State) : State :=
  evs.foldl (fun t e => step e t) s

/-! ## The SSH session (`ssh.py`): connect and disconnect

`SSH.connect` and `SSH.disconnect` manipulate the shared `State` and the
underlying `paramiko.SSHClient`, whose only observable effect here is
whether `close()` has been called on it since the last successful
connect. -/

/-- Error kinds raised by `SSH.connect` (`errors.py`):
`SSHHostKeyUnknownError`, `SSHAuthenticationError`, `SSHConnectError`. -/
inductive SSHError where
  | hostKeyUnknown
  | authenticationError
  | connectError
deriving DecidableEq, Repr

/-- Outcome of the underlying `paramiko.SSHClient.connect` call: success,
`SSHHostKeyUnknownError` raised by the missing-host-key policy,
`paramiko.AuthenticationException`, or a transport-level failure (the
`OSError` and generic `Exception` branches of the source, which perform
the same state manipulation and both surface as `SSHConnectError`). -/
inductive ConnectOutcome where
  | success
  | hostKeyUnknown
  | authFailed
  | transportFailure
deriving DecidableEq, Repr

/-- An `SSH` object as far as the claims observe it: the shared session
state and whether the paramiko client socket is closed. -/
structure SSHConn where
  state : State
  clientClosed : Bool
deriving DecidableEq, Repr

/-- Method `SSH.disconnect` (`ssh.py`): `self._client.close()` then
`self._state.connected = False` (the `notify` parameter fires the
`on_disconnect` event, which is not a state-change notification and is
not modelled). -/
def sshDisconnect (c : SSHConn) : SSHConn :=
  { state := c.state.setConnected false, clientClosed := true }

/-- Method `SSH.connect` (`ssh.py`), parameterised by the outcome of the
underlying `paramiko` connect call; returns the updated object and the
error raised, if any. -/
def sshConnect (c : SSHConn) (o : ConnectOutcome) : SSHConn × Option SSHError :=
  if c.state.connected then (c, none)
  else
    match o with
    | .success =>
        ({ c with state := (c.state.setConnected true).setError false }, none)
    | .hostKeyUnknown =>
        let c1 := sshDisconnect c
        ({ c1 with state := c1.state.setError true }, some .hostKeyUnknown)
    | .authFailed =>
        let c1 := sshDisconnect c
        ({ c1 with state := c1.state.setError true }, some .authenticationError)
    | .transportFailure =>
        (sshDisconnect c, some .connectError)

/-- Method `SSHManager.disconnect` (`manager.py`) on the full connection
object: return if not connected, otherwise `self._ssh.disconnect()`
followed by `self.state.handle_disconnect()`. -/
def managerDisconnect (c : SSHConn) : SSHConn :=
  if c.state.connected = false then c
  else
    let c1 := sshDisconnect c
    { c1 with state := c1.state.handle_disconnect }

/-! ## The shell protocol parser (`ssh.py`, class `ShellParser`)

Strings are Lean `String`s; Python `bytes.decode()` is the identity on
the modelled (ASCII) streams.  `str.isnumeric()` is modelled as
"non-empty and all decimal digits", which on ASCII data coincides with
Python and is exactly the domain on which the source's `int(item)`
succeeds. -/

/-- Sentinel prefix `END = "__exit_code__"` of `ssh.py`. -/
def END : String := "__exit_code__"

/-- Marker command `ECHO_STRING` of `ssh.py` (the f-string over `END`,
`PS_CODE`, `LINUX_CODE`, `CMD_CODE`, `BASH_PIPE`, `ZSH_PIPE`). -/
def ECHO_STRING : String :=
  "echo \"__exit_code__|$LastExitCode|$?|%errorlevel%|$\x7bPIPESTATUS[@]\x7d|$\x7bpipestatus[@]\x7d\""

/-- Termination command `EXIT_STRING = "exit"` of `ssh.py`. -/
def EXIT_STRING : String := "exit"

/-- Python `str.endswith(suffix)`: `suffix` is a suffix of `s`. -/
def pyEndsWith (s suffix : String) : Bool :=
  suffix.data.reverse.isPrefixOf s.data.reverse

/-- Python `str.startswith(prefix)`: the argument starts `s`. -/
def pyStartsWith (s p : String) : Bool :=
  p.data.isPrefixOf s.data

/-- Splitting a character list at every occurrence of a separator
character, keeping empty pieces (the behaviour of Python
`str.split(sep)` for a one-character separator such as the `"|"` of
`_get_code`). -/
def splitChar (sep : Char) : List Char → List (List Char)
  | [] => [[]]
  | c :: cs =>
      if c = sep then [] :: splitChar sep cs
      else
        match splitChar sep cs with
        | h :: t => (c :: h) :: t
        | [] => [[c]]

/-- Python `str.split(sep)` for a one-character separator. -/
def pySplitOnChar (s : String) (sep : Char) : List String :=
  (splitChar sep s.data).map String.mk

/-- Splitting a character list at every whitespace character, keeping
empty pieces (the runs are collapsed by the filter in `splitWS`). -/
def splitAtWS : List Char → List (List Char)
  | [] => [[]]
  | c :: cs =>
      if c.isWhitespace then [] :: splitAtWS cs
      else
        match splitAtWS cs with
        | h :: t => (c :: h) :: t
        | [] => [[c]]

/-- Python `str.split()` with no separator: split on whitespace runs and
drop empty pieces. -/
def splitWS (s : String) : List String :=
  ((splitAtWS s.data).filter (fun p => p ≠ [])).map String.mk

/-- Python `str.isnumeric()` restricted to ASCII decimal digits. -/
def isNumeric (s : String) : Bool :=
  s.data ≠ [] && s.data.all Char.isDigit

/-- Value of a list of decimal digits, most significant first. -/
def digitsToNat (l : List Char) : Nat :=
  l.foldl (fun n c => n * 10 + (c.toNat - '0'.toNat)) 0

/-- Python `int(item)` on a numeric string. -/
def toNatPy (s : String) : Nat :=
  digitsToNat s.data

/-- The first loop of `ShellParser._get_code`: scan `fields[:4]`, returning
the first non-zero numeric field, or `1` at a field equal to `"False"`. -/
def scanFirst4 : List String → Option Nat
  | [] => none
  | item :: rest =>
      if isNumeric item ∧ toNatPy item ≠ 0 then some (toNatPy item)
      else if item = "False" then some 1
      else scanFirst4 rest

/-- The second loop of `ShellParser._get_code`: scan the whitespace-split
pipefail arrays for the first non-zero numeric entry. -/
def scanPipe : List String → Option Nat
  | [] => none
  | item :: rest =>
      if isNumeric item ∧ toNatPy item ≠ 0 then some (toNatPy item)
      else scanPipe rest

/-- Method `ShellParser._get_code` (`ssh.py`): split the marker line on
`"|"`; a field count other than 6 decodes to 0; otherwise scan the first
four fields, then — only when at most one command line was submitted —
the two pipefail-array fields. -/
def get_code (stdin : List String) (line : String) : Nat :=
  let fields := pySplitOnChar line '|'
  if fields.length ≠ 6 then 0
  else
    match scanFirst4 (fields.take 4) with
    | some c => c
    | none =>
        if stdin.length > 1 then 0
        else
          match scanPipe (splitWS (fields.getD 4 "") ++ splitWS (fields.getD 5 "")) with
          | some c => c
          | none => 0

/-- Cursor state of the loop in `ShellParser.parse`: accumulated stdout,
current code, `stdin_count`, and the capture window `[start, stop)`
(`stop` renders the Python variable `end`, a reserved word in Lean). -/
structure ParseSt where
  stdout : List String
  code : Nat
  stdinCount : Nat
  start : Nat
  stop : Nat
deriving DecidableEq, Repr

/-- Branch test `line.endswith(self._stdin[stdin_count]) or line in
[*self._stdin, ECHO_STRING, EXIT_STRING]` of `ShellParser.parse`. -/
def isBoundary (stdin : List String) (stdinCount : Nat) (line : String) : Bool :=
  pyEndsWith line (stdin.getD stdinCount "") ||
    (stdin.contains line || line = ECHO_STRING || line = EXIT_STRING)

/-- Branch test `line.startswith((END, f'"{END}'))` of `ShellParser.parse`. -/
def isMarker (line : String) : Bool :=
  pyStartsWith line END || pyStartsWith line ("\"" ++ END)

/-- The marker branch of the loop body of `ShellParser.parse`:
`stdout.extend(lines[start:end])`, `code = code or self._get_code(line)`,
then reset the window and advance `stdin_count`. -/
def markerStep (stdin : List String) (lines : List String) (i : Nat)
    (line : String) (st : ParseSt) : ParseSt :=
  { st with
      stdout := st.stdout ++ ((lines.drop st.start).take (st.stop - st.start)),
      code := if st.code ≠ 0 then st.code else get_code stdin line,
      start := i + 1, stop := i + 1,
      stdinCount := st.stdinCount + 1 }

/-- The `for i, line in enumerate(lines)` loop of `ShellParser.parse`,
walking the remaining lines with their index `i`.  The leading test
renders `if stdin_count > len(self._stdin) - 1: break` (over Python's
unbounded integers, i.e. `stdin_count ≥ len(stdin)`); the slice
`lines[start:end]` is `(lines.drop start).take (stop - start)`. -/
def parseLoop (stdin : List String) (lines : List String) :
    Nat → List String → ParseSt → ParseSt
  | _, [], st => st
  | i, line :: rest, st =>
      if st.stdinCount ≥ stdin.length then st
      else
        let st1 :=
          if isBoundary stdin st.stdinCount line then
            { st with start := i + 1, stop := i + 1 }
          else if pyEndsWith line ECHO_STRING then
            { st with stop := i }
          else if isMarker line then
            markerStep stdin lines i line st
          else st
        parseLoop stdin lines (i + 1) rest st1

/-- Specification-side companion of `parseLoop` for §4.2's first-failure
rule: the same walk, same branch tests and same cursor updates, but
collecting the decoded code of every sentinel marker the walk processes,
in stream order. -/
def parseLoopCodes (stdin : List String) (lines : List String) :
    Nat → List String → ParseSt → List Nat
  | _, [], _ => []
  | i, line :: rest, st =>
      if st.stdinCount ≥ stdin.length then []
      else
        if isBoundary stdin st.stdinCount line then
          parseLoopCodes stdin lines (i + 1) rest { st with start := i + 1, stop := i + 1 }
        else if pyEndsWith line ECHO_STRING then
          parseLoopCodes stdin lines (i + 1) rest { st with stop := i }
        else if isMarker line then
          get_code stdin line ::
            parseLoopCodes stdin lines (i + 1) rest (markerStep stdin lines i line st)
        else parseLoopCodes stdin lines (i + 1) rest st

/-- Decoded codes of the sentinel markers processed by a full parse, in
stream order. -/
def markerCodes (stdin : List String) (lines : List String) : List Nat :=
  parseLoopCodes stdin lines 0 lines ⟨[], 0, 0, 0, 0⟩

/-- First non-zero entry of a list of codes, `0` if there is none
(the spec's "first-failure-wins" combination rule). -/
def firstNonzero : List Nat → Nat
  | [] => 0
  | c :: cs => if c ≠ 0 then c else firstNonzero cs

/-- Method `ShellParser.parse` (`ssh.py`) after line normalisation: run the
loop over the normalised lines and return `(stdout, code)`. -/
def parseLines (stdin : List String) (lines : List String) : List String × Nat :=
  let st := parseLoop stdin lines 0 lines ⟨[], 0, 0, 0, 0⟩
  (st.stdout, st.code)

/-! ### Line normalisation (`ShellParser._get_lines`)

The three `re.sub` passes are rendered as character-list scanners.  Each
scanner consumes at least one character per step; to keep the
definitions kernel-computable they recurse on a fuel argument
initialised to the input length, which therefore never runs out. -/

/-- Scanner for the non-greedy tail `.*?\x07` of `WIN_TITLE`
(`\x1b]0;.*?\x07`): find the terminating BEL before any newline (`.`
does not match a newline) and return what follows it. -/
def dropThroughBell : List Char → Option (List Char)
  | [] => none
  | c :: cs =>
      if c = '\x07' then some cs
      else if c = '\n' then none
      else dropThroughBell cs

/-- One pass of `WIN_TITLE.sub("", string)`: remove every window-title OSC
sequence `\x1b]0; ... \x07`. -/
def subWinTitleF : Nat → List Char → List Char
  | 0, l => l
  | fuel + 1, l =>
      match l with
      | '\x1b' :: ']' :: '0' :: ';' :: cs =>
          match dropThroughBell cs with
          | some rest => subWinTitleF fuel rest
          | none => '\x1b' :: subWinTitleF fuel (']' :: '0' :: ';' :: cs)
      | c :: cs => c :: subWinTitleF fuel cs
      | [] => []

/-- Substitution `WIN_TITLE.sub("", string)` of `_get_lines`. -/
def subWinTitle (l : List Char) : List Char :=
  subWinTitleF l.length l

/-- Greedy digit run `\d+` used by `WIN_NEWLINE`. -/
def takeDigits : List Char → List Char × List Char
  | [] => ([], [])
  | c :: cs =>
      if c.isDigit then
        let (ds, rest) := takeDigits cs
        (c :: ds, rest)
      else ([], c :: cs)

/-- One pass of `WIN_NEWLINE.sub("\n", string)`: replace every cursor-move
sequence `\x1b[<digits>;1H` by a newline. -/
def subWinNewlineF : Nat → List Char → List Char
  | 0, l => l
  | fuel + 1, l =>
      match l with
      | '\x1b' :: '[' :: cs =>
          match takeDigits cs with
          | (_ :: _, ';' :: '1' :: 'H' :: rest) => '\n' :: subWinNewlineF fuel rest
          | _ => '\x1b' :: subWinNewlineF fuel ('[' :: cs)
      | c :: cs => c :: subWinNewlineF fuel cs
      | [] => []

/-- Substitution `WIN_NEWLINE.sub("\n", string)` of `_get_lines`. -/
def subWinNewline (l : List Char) : List Char :=
  subWinNewlineF l.length l

/-- Character class `[@-Z\\-_]` of `ANSI_ESCAPE` (a two-character escape). -/
def isAnsiSingle (c : Char) : Bool :=
  ('@' ≤ c ∧ c ≤ 'Z') ∨ ('\\' ≤ c ∧ c ≤ '_')

/-- Character class `[0-?]` of `ANSI_ESCAPE` (CSI parameter bytes). -/
def isAnsiParam (c : Char) : Bool :=
  '0' ≤ c ∧ c ≤ '?'

/-- Character class of `ANSI_ESCAPE` ranging from space to slash (CSI
intermediate bytes). -/
def isAnsiInter (c : Char) : Bool :=
  ' ' ≤ c ∧ c ≤ '/'

/-- Character class `[@-~]` of `ANSI_ESCAPE` (CSI final byte). -/
def isAnsiFinal (c : Char) : Bool :=
  '@' ≤ c ∧ c ≤ '~'

/-- One pass of `ANSI_ESCAPE.sub("", string)`: remove every two-character
escape `\x1b[@-Z\\-_]` and every CSI sequence (a `[`, parameter bytes,
intermediate bytes, and a final byte in `[@-~]`). -/
def subAnsiEscapeF : Nat → List Char → List Char
  | 0, l => l
  | fuel + 1, l =>
      match l with
      | '\x1b' :: c :: cs =>
          if isAnsiSingle c then subAnsiEscapeF fuel cs
          else if c = '[' then
            match (cs.dropWhile isAnsiParam).dropWhile isAnsiInter with
            | f :: rest =>
                if isAnsiFinal f then subAnsiEscapeF fuel rest
                else '\x1b' :: subAnsiEscapeF fuel (c :: cs)
            | [] => '\x1b' :: subAnsiEscapeF fuel (c :: cs)
          else '\x1b' :: subAnsiEscapeF fuel (c :: cs)
      | c :: cs => c :: subAnsiEscapeF fuel cs
      | [] => []

/-- Substitution `ANSI_ESCAPE.sub("", string)` of `_get_lines`. -/
def subAnsiEscape (l : List Char) : List Char :=
  subAnsiEscapeF l.length l

/-- Python `str.splitlines()` on the normalised text.  Carriage returns
were removed by the preceding `replace("\r", "")`, so the only line
boundary left in the modelled streams is `"\n"`: split on it and, unlike
`str.split`, produce no entry for a trailing newline. -/
def splitlinesPy (s : String) : List String :=
  if s = "" then []
  else
    let parts := pySplitOnChar s '\n'
    if parts.getLast? = some "" then parts.dropLast else parts

/-- Method `ShellParser._get_lines` (`ssh.py`): strip window-title OSC
sequences, turn cursor-move sequences into newlines, strip the remaining
ANSI escapes, delete backspace, carriage-return and NUL characters, and
split into lines. -/
def get_lines (raw : String) : List String :=
  let cs := raw.data
  let cs := subWinTitle cs
  let cs := subWinNewline cs
  let cs := subAnsiEscape cs
  let cs := cs.filter (fun c => c ≠ '\x08' ∧ c ≠ '\r' ∧ c ≠ '\x00')
  splitlinesPy (String.mk cs)

/-- Method `ShellParser.parse` (`ssh.py`) on the raw captured stream. -/
def parse (stdin : List String) (raw : String) : List String × Nat :=
  parseLines stdin (get_lines raw)


/-! ## Helper lemmas about the setters -/

/-- Closed form of `State.setOnline`. -/
@[simp] theorem State.setOnline_def (s : State) (v : Bool) :
    s.setOnline v = { s with
      online := v,
      notifications := (if v = s.online then s.notifications else s.notifications + 1) } := by
  unfold State.setOnline; split <;> simp_all

/-- Closed form of `State.setConnected`. -/
@[simp] theorem State.setConnected_def (s : State) (v : Bool) :
    s.setConnected v = { s with
      connected := v,
      notifications := (if v = s.connected then s.notifications else s.notifications + 1) } := by
  unfold State.setConnected; split <;> simp_all

/-- Closed form of `State.setError`. -/
@[simp] theorem State.setError_def (s : State) (v : Bool) :
    s.setError v = { s with
      error := v,
      notifications := (if v = s.error then s.notifications else s.notifications + 1) } := by
  unfold State.setError; split <;> simp_all

/-- Closed form of `State.setRequest`. -/
@[simp] theorem State.setRequest_def (s : State) (now : Int) (v : Option Request) :
    s.setRequest now v = { s with
      request := v,
      requestTimestamp := (if v = s.request then s.requestTimestamp else now),
      notifications := (if v = s.request then s.notifications else s.notifications + 1) } := by
  unfold State.setRequest; split <;> simp_all

/-! ## Projection lemmas for the transition handlers -/

/-- Lemma: `SSHManager.disconnect` leaves the session disconnected. -/
@[simp] theorem managerDisconnectState_connected (s : State) :
    (managerDisconnectState s).connected = false := by
  unfold managerDisconnectState; split_ifs with h <;> simp_all

/-- Lemma: `SSHManager.disconnect` does not touch `online`. -/
@[simp] theorem managerDisconnectState_online (s : State) :
    (managerDisconnectState s).online = s.online := by
  unfold managerDisconnectState; split_ifs with h <;> simp_all

/-- Lemma: `SSHManager.disconnect` does not touch `request`. -/
@[simp] theorem managerDisconnectState_request (s : State) :
    (managerDisconnectState s).request = s.request := by
  unfold managerDisconnectState; split_ifs with h <;> simp_all

/-- Lemma: `SSHManager.disconnect` does not touch `error`. -/
@[simp] theorem managerDisconnectState_error (s : State) :
    (managerDisconnectState s).error = s.error := by
  unfold managerDisconnectState; split_ifs with h <;> simp_all

/-- Lemma: `SSHManager.disconnect` does not touch the request timestamp. -/
@[simp] theorem managerDisconnectState_requestTimestamp (s : State) :
    (managerDisconnectState s).requestTimestamp = s.requestTimestamp := by
  unfold managerDisconnectState; split_ifs with h <;> simp_all

/-- Lemma: a failed probe forces `online = false`. -/
@[simp] theorem handle_ping_error_online (s : State) (now : Int) :
    (s.handle_ping_error now).online = false := by
  unfold State.handle_ping_error; split_ifs <;> simp_all

/-- Lemma: a failed probe leaves the session disconnected. -/
@[simp] theorem handle_ping_error_connected (s : State) (now : Int) :
    (s.handle_ping_error now).connected = false := by
  obtain ⟨o, c, r, er, ts, n⟩ := s
  cases c <;> rcases r with _ | rq <;> try cases rq
  all_goals simp [State.handle_ping_error, managerDisconnectState]

/-- Lemma: a failed probe does not touch the sticky `error` flag. -/
@[simp] theorem handle_ping_error_error (s : State) (now : Int) :
    (s.handle_ping_error now).error = s.error := by
  obtain ⟨o, c, r, er, ts, n⟩ := s
  cases c <;> rcases r with _ | rq <;> try cases rq
  all_goals simp [State.handle_ping_error, managerDisconnectState]

/-- Lemma: the request after a failed probe (`TurnOff` cleared, `Restart`
demoted to `TurnOn`, everything else untouched). -/
theorem handle_ping_error_request (s : State) (now : Int) :
    (s.handle_ping_error now).request =
      if s.request = some .turn_off then none
      else if s.request = some .restart then some .turn_on
      else s.request := by
  unfold State.handle_ping_error; split_ifs <;> simp_all

/-- Lemma: a successful probe forces `online = true`. -/
@[simp] theorem handle_ping_success_online (s : State) (now : Int) :
    (s.handle_ping_success now).online = true := by
  unfold State.handle_ping_success; split_ifs <;> simp_all

/-- Lemma: a successful probe does not touch `connected`. -/
@[simp] theorem handle_ping_success_connected (s : State) (now : Int) :
    (s.handle_ping_success now).connected = s.connected := by
  unfold State.handle_ping_success; split_ifs <;> simp_all

/-- Lemma: a successful probe does not touch `error`. -/
@[simp] theorem handle_ping_success_error (s : State) (now : Int) :
    (s.handle_ping_success now).error = s.error := by
  unfold State.handle_ping_success; split_ifs <;> simp_all

/-- Lemma: the request after a successful probe (`TurnOn` promoted to
`Connect`, everything else untouched). -/
theorem handle_ping_success_request (s : State) (now : Int) :
    (s.handle_ping_success now).request =
      if s.request = some .turn_on then some .connect else s.request := by
  unfold State.handle_ping_success; split_ifs <;> simp_all

/-- Lemma: a successful connect forces `connected = true`. -/
@[simp] theorem handle_connect_success_connected (s : State) (now : Int) :
    (s.handle_connect_success now).connected = true := by
  unfold State.handle_connect_success; split_ifs <;> simp_all

/-- Lemma: a successful connect does not touch `online`. -/
@[simp] theorem handle_connect_success_online (s : State) (now : Int) :
    (s.handle_connect_success now).online = s.online := by
  unfold State.handle_connect_success; split_ifs <;> simp_all

/-- Lemma: a successful connect clears the sticky `error` flag. -/
@[simp] theorem handle_connect_success_error (s : State) (now : Int) :
    (s.handle_connect_success now).error = false := by
  unfold State.handle_connect_success; split_ifs <;> simp_all

/-- Lemma: the request after a successful connect (`Connect` cleared,
everything else untouched). -/
theorem handle_connect_success_request (s : State) (now : Int) :
    (s.handle_connect_success now).request =
      if s.request = some .connect then none else s.request := by
  unfold State.handle_connect_success; split_ifs <;> simp_all

/-- Lemma: an update tick does not touch `connected`. -/
@[simp] theorem handle_update_connected (s : State) (now : Int) :
    (s.handle_update now).connected = s.connected := by
  unfold State.handle_update
  split
  · rfl
  · split <;> simp

/-- Lemma: an update tick does not touch `online`. -/
@[simp] theorem handle_update_online (s : State) (now : Int) :
    (s.handle_update now).online = s.online := by
  unfold State.handle_update
  split
  · rfl
  · split <;> simp

/-! ## The safety invariant (claim C1) -/

/-- A connected session implies a reachable host. -/
def StateInv (s : State) : Prop := s.connected = true → s.online = true

/-- Every manager-boundary step preserves the invariant. -/
theorem step_inv (e : Event) (s : State) (h : StateInv s) : StateInv (step e s) := by
  cases e with
  | pingSuccess now => intro _; simp [step]
  | pingError now => intro hc; simp [step] at hc
  | connectSuccess now =>
      intro hc
      simp only [step] at hc ⊢
      split_ifs at hc ⊢ with hg
      · have := of_decide_eq_true (by simpa [connectGuard] using hg)
        simp [hc, this.2.1]
      · exact h hc
  | connectAuthError =>
      intro hc
      simp only [step, State.handle_auth_error] at hc ⊢
      split_ifs at hc ⊢ with hg <;> simp_all [StateInv]
  | connectTransportError =>
      intro hc
      simp only [step, State.handle_connect_error] at hc ⊢
      split_ifs at hc ⊢ with hg <;> exact h hc
  | disconnect => intro hc; simp [step] at hc
  | executeError => exact h
  | turnOn now =>
      intro hc
      simp only [step, State.handle_turn_on] at hc ⊢
      split_ifs at hc ⊢ with hg <;> simp_all [StateInv]
  | turnOff now =>
      intro hc
      simp [step, State.handle_turn_off] at hc
  | restart now =>
      intro hc
      simp [step, State.handle_restart] at hc
  | update now =>
      intro hc
      simp only [step, handle_update_connected] at hc
      simp only [step, handle_update_online]
      exact h hc
  | close => intro hc; simp [step] at hc

/-- The invariant is preserved along any event trace. -/
theorem run_inv (evs : List Event) (s : State) (h : StateInv s) : StateInv (run evs s) := by
  induction evs generalizing s with
  | nil => exact h
  | cons e evs ih => exact ih (step e s) (step_inv e s h)

/-- Lemma: the request timestamp after a failed probe (reset exactly when
the failed probe changes the request). -/
theorem handle_ping_error_requestTimestamp (s : State) (now : Int) :
    (s.handle_ping_error now).requestTimestamp =
      if s.request = some .turn_off ∨ s.request = some .restart then now
      else s.requestTimestamp := by
  obtain ⟨o, c, r, er, ts, n⟩ := s
  cases c <;> rcases r with _ | rq <;> try cases rq
  all_goals simp [State.handle_ping_error, managerDisconnectState]

/-- Lemma: the request timestamp after a successful probe (reset exactly
when the probe promotes a pending `TurnOn`). -/
theorem handle_ping_success_requestTimestamp (s : State) (now : Int) :
    (s.handle_ping_success now).requestTimestamp =
      if s.request = some .turn_on then now else s.requestTimestamp := by
  obtain ⟨o, c, r, er, ts, n⟩ := s
  cases c <;> rcases r with _ | rq <;> try cases rq
  all_goals simp [State.handle_ping_success]

/-! ## Claim theorems: the state machine -/

/-- C1: in every reachable state of the session state machine —
any sequence of manager-boundary events (ping success/error, connect
success/error, disconnect, execute error, turn-on/off/restart, update,
close) from the initial state (`online = false`, `connected = false`) —
`connected = true` implies `online = true`. -/
theorem C1_connected_implies_online (t0 : Int) (evs : List Event) :
    (run evs (initState t0)).connected = true →
    (run evs (initState t0)).online = true :=
  run_inv evs (initState t0) (by intro hc; simp [initState] at hc)

/-- Witness for C1: the trace ping-success then connect-success reaches a
connected state, and the theorem yields that it is online. -/
theorem C1_connected_implies_online_witness :
    (run [Event.pingSuccess 0, Event.connectSuccess 1] (initState 0)).connected = true ∧
    (run [Event.pingSuccess 0, Event.connectSuccess 1] (initState 0)).online = true :=
  ⟨by decide, C1_connected_implies_online 0 _ (by decide)⟩

/-- C3: at an update tick, a pending request whose elapsed time exceeds its
budget (turn-on 60s, turn-off 30s, restart 30s, connect 30s) is cleared to
`none`; with no pending request, or with the budget not yet exceeded, the
tick leaves the state unchanged. -/
theorem C3_request_expiry (s : State) (now : Int) :
    (∀ r, s.request = some r →
      (now - s.requestTimestamp > TIMEOUTS r → (s.handle_update now).request = none) ∧
      (now - s.requestTimestamp ≤ TIMEOUTS r → s.handle_update now = s)) ∧
    (s.request = none → s.handle_update now = s) ∧
    TIMEOUTS .turn_on = 60 ∧ TIMEOUTS .turn_off = 30 ∧
    TIMEOUTS .restart = 30 ∧ TIMEOUTS .connect = 30 := by
  refine ⟨?_, ?_, rfl, rfl, rfl, rfl⟩
  · intro r hr
    have hcase : s.handle_update now =
        if now - s.requestTimestamp > TIMEOUTS r then s.setRequest now none else s := by
      unfold State.handle_update
      split
      · rename_i hnone; rw [hnone] at hr; cases hr
      · rename_i r2 hsome
        rw [hsome] at hr
        injection hr with h
        subst h
        rfl
    constructor
    · intro hgt; rw [hcase, if_pos hgt]; simp
    · intro hle; rw [hcase, if_neg (not_lt.mpr hle)]
  · intro hr
    unfold State.handle_update
    split
    · rfl
    · rename_i r2 hsome; rw [hsome] at hr; cases hr

/-- Witness for C3: a turn-on request stamped at time 0 is gone at the
tick at time 61. -/
theorem C3_request_expiry_witness :
    ({ online := true, connected := false, request := some .turn_on, error := false,
       requestTimestamp := 0, notifications := 0 } : State).request = some Request.turn_on ∧
    (({ online := true, connected := false, request := some .turn_on, error := false,
        requestTimestamp := 0, notifications := 0 } : State).handle_update 61).request = none :=
  ⟨rfl,
    ((C3_request_expiry
        { online := true, connected := false, request := some .turn_on, error := false,
          requestTimestamp := 0, notifications := 0 } 61).1 .turn_on rfl).1 (by decide)⟩

/-- C4: exact effects of the probe-outcome transitions: a failed probe
forces `online = false` and `connected = false`, leaves `error` alone,
clears a pending `TurnOff`, demotes a pending `Restart` to `TurnOn` and
leaves any other request unchanged; a successful probe forces
`online = true`, leaves `connected` and `error` alone, promotes a pending
`TurnOn` to `Connect` and leaves any other request unchanged; and from a
pending `Restart`, a failed then a successful probe yield `TurnOn` then
`Connect`. -/
theorem C4_probe_transitions (s : State) (now now2 : Int) :
    (s.handle_ping_error now).online = false ∧
    (s.handle_ping_error now).connected = false ∧
    (s.handle_ping_error now).error = s.error ∧
    (s.request = some .turn_off → (s.handle_ping_error now).request = none) ∧
    (s.request = some .restart → (s.handle_ping_error now).request = some .turn_on) ∧
    (s.request ≠ some .turn_off → s.request ≠ some .restart →
      (s.handle_ping_error now).request = s.request) ∧
    (s.handle_ping_success now).online = true ∧
    (s.handle_ping_success now).connected = s.connected ∧
    (s.handle_ping_success now).error = s.error ∧
    (s.request = some .turn_on → (s.handle_ping_success now).request = some .connect) ∧
    (s.request ≠ some .turn_on → (s.handle_ping_success now).request = s.request) ∧
    (s.request = some .restart →
      (s.handle_ping_error now).request = some .turn_on ∧
      ((s.handle_ping_error now).handle_ping_success now2).request = some .connect) := by
  refine ⟨by simp, by simp, by simp, ?_, ?_, ?_, by simp, by simp, by simp, ?_, ?_, ?_⟩
  · intro h; rw [handle_ping_error_request]; simp [h]
  · intro h; rw [handle_ping_error_request]; simp [h]
  · intro h1 h2; rw [handle_ping_error_request]; simp [h1, h2]
  · intro h; rw [handle_ping_success_request]; simp [h]
  · intro h; rw [handle_ping_success_request]; simp [h]
  · intro h
    have e1 : (s.handle_ping_error now).request = some .turn_on := by
      rw [handle_ping_error_request]; simp [h]
    exact ⟨e1, by rw [handle_ping_success_request, e1]; simp⟩

/-- Witness for C4: the `Restart` demotion/promotion scenario at a concrete
state. -/
theorem C4_probe_transitions_witness :
    ({ online := true, connected := true, request := some .restart, error := false,
       requestTimestamp := 0, notifications := 0 } : State).request = some Request.restart ∧
    (({ online := true, connected := true, request := some .restart, error := false,
        requestTimestamp := 0, notifications := 0 } : State).handle_ping_error 5).request =
      some Request.turn_on ∧
    ((({ online := true, connected := true, request := some .restart, error := false,
         requestTimestamp := 0, notifications := 0 } : State).handle_ping_error 5
        ).handle_ping_success 6).request = some Request.connect := by
  refine ⟨rfl, ?_⟩
  have h := (C4_probe_transitions
    { online := true, connected := true, request := some .restart, error := false,
      requestTimestamp := 0, notifications := 0 } 5 6).2.2.2.2.2.2.2.2.2.2.2 rfl
  exact h

/-- C7: a successful connect sets `connected = true`, resets the sticky
`error` flag to `false` whatever its prior value, clears a pending
`Connect` request, and leaves any other pending request (and `online`)
unchanged. -/
theorem C7_connect_success (s : State) (now : Int) :
    (s.handle_connect_success now).connected = true ∧
    (s.handle_connect_success now).error = false ∧
    (s.handle_connect_success now).online = s.online ∧
    (s.request = some .connect → (s.handle_connect_success now).request = none) ∧
    (s.request ≠ some .connect → (s.handle_connect_success now).request = s.request) := by
  refine ⟨by simp, by simp, by simp, ?_, ?_⟩
  · intro h; rw [handle_connect_success_request]; simp [h]
  · intro h; rw [handle_connect_success_request]; simp [h]

/-- Witness for C7: a successful connect from a state with the sticky error
flag set and a pending `Connect`. -/
theorem C7_connect_success_witness :
    ({ online := true, connected := false, request := some .connect, error := true,
       requestTimestamp := 0, notifications := 0 } : State).request = some Request.connect ∧
    (({ online := true, connected := false, request := some .connect, error := true,
        requestTimestamp := 0, notifications := 0 } : State).handle_connect_success 3).connected = true ∧
    (({ online := true, connected := false, request := some .connect, error := true,
        requestTimestamp := 0, notifications := 0 } : State).handle_connect_success 3).error = false ∧
    (({ online := true, connected := false, request := some .connect, error := true,
        requestTimestamp := 0, notifications := 0 } : State).handle_connect_success 3).request = none := by
  have h := C7_connect_success
    { online := true, connected := false, request := some .connect, error := true,
      requestTimestamp := 0, notifications := 0 } 3
  exact ⟨rfl, h.1, h.2.1, h.2.2.2.1 rfl⟩

/-- C6: `SSH.connect` is a no-op returning no error when already
connected; every failing attempt leaves the client closed and
`connected = false` in the returned state together with the raised error;
host-key-unknown and authentication failures set the sticky `error` flag,
while a transport failure leaves it unchanged. -/
theorem C6_connect_failure_paths (c : SSHConn) :
    (c.state.connected = true → ∀ o, sshConnect c o = (c, none)) ∧
    (c.state.connected = false →
      ((sshConnect c .hostKeyUnknown).1.state.connected = false ∧
       (sshConnect c .hostKeyUnknown).1.clientClosed = true ∧
       (sshConnect c .hostKeyUnknown).1.state.error = true ∧
       (sshConnect c .hostKeyUnknown).2 = some .hostKeyUnknown) ∧
      ((sshConnect c .authFailed).1.state.connected = false ∧
       (sshConnect c .authFailed).1.clientClosed = true ∧
       (sshConnect c .authFailed).1.state.error = true ∧
       (sshConnect c .authFailed).2 = some .authenticationError) ∧
      ((sshConnect c .transportFailure).1.state.connected = false ∧
       (sshConnect c .transportFailure).1.clientClosed = true ∧
       (sshConnect c .transportFailure).1.state.error = c.state.error ∧
       (sshConnect c .transportFailure).2 = some .connectError)) := by
  constructor
  · intro h o
    simp [sshConnect, h]
  · intro h
    refine ⟨⟨?_, ?_, ?_, ?_⟩, ⟨?_, ?_, ?_, ?_⟩, ⟨?_, ?_, ?_, ?_⟩⟩ <;>
      simp [sshConnect, sshDisconnect, h]

/-- Witness for C6: a transport failure from a disconnected state closes
the client and leaves the error flag untouched. -/
theorem C6_connect_failure_paths_witness :
    ({ state := { online := true, connected := false, request := none, error := false,
                  requestTimestamp := 0, notifications := 0 },
       clientClosed := false } : SSHConn).state.connected = false ∧
    (sshConnect
      { state := { online := true, connected := false, request := none, error := false,
                   requestTimestamp := 0, notifications := 0 },
        clientClosed := false } .transportFailure).1.clientClosed = true := by
  have h := (C6_connect_failure_paths
    { state := { online := true, connected := false, request := none, error := false,
                 requestTimestamp := 0, notifications := 0 },
      clientClosed := false }).2 rfl
  exact ⟨rfl, h.2.2.2.1⟩

/-- C9: `SSHManager.disconnect` from a connected state emits exactly one
state-change notification and a second call is a no-op; and every setter
applied to the current value of its field leaves the state unchanged and
emits no notification. -/
theorem C9_disconnect_idempotent :
    (∀ conn : SSHConn, conn.state.connected = true →
      (managerDisconnect conn).state.notifications = conn.state.notifications + 1 ∧
      managerDisconnect (managerDisconnect conn) = managerDisconnect conn) ∧
    (∀ (s : State) (now : Int),
      s.setOnline s.online = s ∧ s.setConnected s.connected = s ∧
      s.setError s.error = s ∧ s.setRequest now s.request = s) := by
  constructor
  · rintro ⟨⟨o, cn, r, er, ts, n⟩, cc⟩ h
    simp only at h
    subst h
    constructor
    · simp [managerDisconnect, sshDisconnect, State.handle_disconnect]
    · simp [managerDisconnect, sshDisconnect, State.handle_disconnect]
  · intro s now
    refine ⟨?_, ?_, ?_, ?_⟩ <;> simp

/-- Witness for C9 at a concrete connected object. -/
theorem C9_disconnect_idempotent_witness :
    ({ state := { online := true, connected := true, request := none, error := false,
                  requestTimestamp := 0, notifications := 4 },
       clientClosed := false } : SSHConn).state.connected = true ∧
    (managerDisconnect
      { state := { online := true, connected := true, request := none, error := false,
                   requestTimestamp := 0, notifications := 4 },
        clientClosed := false }).state.notifications = 5 := by
  have h := (C9_disconnect_idempotent).1
    { state := { online := true, connected := true, request := none, error := false,
                 requestTimestamp := 0, notifications := 4 },
      clientClosed := false } rfl
  exact ⟨rfl, h.1⟩

/-- C10: any assignment that changes the pending request resets the request
timestamp to the current time — in particular the `TurnOn` to `Connect`
promotion on a successful probe and the `Restart` to `TurnOn` demotion on
a failed probe — so the new request has its full budget from the moment
of the change: an update tick within the budget measured from that moment
changes nothing. -/
theorem C10_request_timestamp_reset (s : State) (now t2 : Int) (v : Option Request) :
    (v ≠ s.request →
      (s.setRequest now v).requestTimestamp = now ∧ (s.setRequest now v).request = v) ∧
    (s.request = some .turn_on →
      (s.handle_ping_success now).requestTimestamp = now ∧
      (s.handle_ping_success now).request = some .connect ∧
      (t2 - now ≤ TIMEOUTS .connect →
        (s.handle_ping_success now).handle_update t2 = s.handle_ping_success now)) ∧
    (s.request = some .restart →
      (s.handle_ping_error now).requestTimestamp = now ∧
      (s.handle_ping_error now).request = some .turn_on ∧
      (t2 - now ≤ TIMEOUTS .turn_on →
        (s.handle_ping_error now).handle_update t2 = s.handle_ping_error now)) := by
  refine ⟨?_, ?_, ?_⟩
  · intro h; simp [h]
  · intro h
    have hts : (s.handle_ping_success now).requestTimestamp = now := by
      rw [handle_ping_success_requestTimestamp]; simp [h]
    have hreq : (s.handle_ping_success now).request = some .connect := by
      rw [handle_ping_success_request]; simp [h]
    refine ⟨hts, hreq, ?_⟩
    intro hle
    unfold State.handle_update
    split
    · rfl
    · rename_i r2 hsome
      rw [hreq] at hsome
      injection hsome with h2
      subst h2
      rw [hts, if_neg (not_lt.mpr hle)]
  · intro h
    have hts : (s.handle_ping_error now).requestTimestamp = now := by
      rw [handle_ping_error_requestTimestamp]; simp [h]
    have hreq : (s.handle_ping_error now).request = some .turn_on := by
      rw [handle_ping_error_request]; simp [h]
    refine ⟨hts, hreq, ?_⟩
    intro hle
    unfold State.handle_update
    split
    · rfl
    · rename_i r2 hsome
      rw [hreq] at hsome
      injection hsome with h2
      subst h2
      rw [hts, if_neg (not_lt.mpr hle)]

/-- Witness for C10: the promotion of `TurnOn` at time 100 keeps its fresh
timestamp, and the tick at time 130 (within the 30s connect budget) keeps
the promoted request. -/
theorem C10_request_timestamp_reset_witness :
    ({ online := false, connected := false, request := some .turn_on, error := false,
       requestTimestamp := 0, notifications := 0 } : State).request = some Request.turn_on ∧
    (({ online := false, connected := false, request := some .turn_on, error := false,
        requestTimestamp := 0, notifications := 0 } : State).handle_ping_success 100
      ).requestTimestamp = 100 ∧
    ((({ online := false, connected := false, request := some .turn_on, error := false,
         requestTimestamp := 0, notifications := 0 } : State).handle_ping_success 100
       ).handle_update 130).request = some Request.connect := by
  have h := ((C10_request_timestamp_reset
    { online := false, connected := false, request := some .turn_on, error := false,
      requestTimestamp := 0, notifications := 0 } 100 130 none).2.1 rfl)
  refine ⟨rfl, h.1, ?_⟩
  rw [h.2.2 (by decide)]
  exact h.2.1

/-! ## Claim theorems: the shell protocol parser -/

/-- C2 (counterexample): for the single submitted command `"echo hi"` and
the raw stream `"echo hi\nhi\n__exit_code__|0|0|0|0|0\nexit\n"`, the
parser does not return stdout `["hi"]` with exit code 0. -/
theorem C2_parse_roundtrip_counterexample :
    parse ["echo hi"] "echo hi\nhi\n__exit_code__|0|0|0|0|0\nexit\n" ≠ (["hi"], 0) := by
  decide

/-- C2 (amended): on that stream the parser returns exit code 0 but empty
stdout.  The `end` cursor only advances past captured output at a line
that ends with the echoed sentinel command; this stream has no such line,
so the capture window `[start, end)` is still empty when the marker line
is reached and the `"hi"` line is dropped. -/
theorem C2_parse_roundtrip_amended :
    parse ["echo hi"] "echo hi\nhi\n__exit_code__|0|0|0|0|0\nexit\n" = ([], 0) := by
  decide

/-- C8: a marker line whose field count differs from the expected six
decodes to exit code 0 for every stdin; and in a well-formed marker a
`"False"` boolean echo decodes to 1 while a `"True"` boolean echo decodes
to 0 (the parser being a total function, no marker raises). -/
theorem C8_malformed_marker_defaults (stdin : List String) (line : String) :
    ((pySplitOnChar line '|').length ≠ 6 → get_code stdin line = 0) ∧
    get_code stdin "__exit_code__|False|0|0|0|0" = 1 ∧
    get_code stdin "__exit_code__|True|0|0|0|0" = 0 := by
  refine ⟨?_, ?_, ?_⟩
  · intro h
    simp only [get_code]
    rw [if_pos h]
  · have hf : pySplitOnChar "__exit_code__|False|0|0|0|0" '|' =
        ["__exit_code__", "False", "0", "0", "0", "0"] := by decide
    simp only [get_code, hf]
    norm_num
    have : scanFirst4 ["__exit_code__", "False", "0", "0"] = some 1 := by decide
    simp [this]
  · have ht : pySplitOnChar "__exit_code__|True|0|0|0|0" '|' =
        ["__exit_code__", "True", "0", "0", "0", "0"] := by decide
    simp only [get_code, ht]
    norm_num
    have : scanFirst4 ["__exit_code__", "True", "0", "0"] = none := by decide
    simp [this]
    intro _
    simp [show scanPipe (splitWS "0" ++ splitWS "0") = none from by decide]

/-- Witness for C8: a marker with two fields decodes to 0. -/
theorem C8_malformed_marker_defaults_witness :
    (pySplitOnChar "__exit_code__|0" '|').length ≠ 6 ∧
    get_code ["x"] "__exit_code__|0" = 0 :=
  ⟨by decide, (C8_malformed_marker_defaults ["x"] "__exit_code__|0").1 (by decide)⟩

/-- Lemma: the parse loop's `code = code or get_code(line)` accumulator
computes the first non-zero code among the marker codes the walk decodes,
starting from the accumulator's current value. -/
theorem parseLoop_code (stdin lines : List String) :
    ∀ (rest : List String) (i : Nat) (st : ParseSt),
      (parseLoop stdin lines i rest st).code =
        if st.code ≠ 0 then st.code
        else firstNonzero (parseLoopCodes stdin lines i rest st) := by
  intro rest
  induction rest with
  | nil =>
      intro i st
      simp only [parseLoop, parseLoopCodes, firstNonzero]
      by_cases h : st.code = 0 <;> simp [h]
  | cons line rest ih =>
      intro i st
      simp only [parseLoop, parseLoopCodes]
      by_cases hbreak : st.stdinCount ≥ stdin.length
      · rw [if_pos hbreak, if_pos hbreak]
        simp only [firstNonzero]
        by_cases h : st.code = 0 <;> simp [h]
      · rw [if_neg hbreak, if_neg hbreak]
        by_cases hb : isBoundary stdin st.stdinCount line = true
        · rw [if_pos hb, if_pos hb, ih]
        · rw [if_neg hb, if_neg hb]
          by_cases hecho : pyEndsWith line ECHO_STRING = true
          · rw [if_pos hecho, if_pos hecho, ih]
          · rw [if_neg hecho, if_neg hecho]
            by_cases hm : isMarker line = true
            · rw [if_pos hm, if_pos hm, ih]
              by_cases h0 : st.code = 0 <;> simp [markerStep, firstNonzero, h0]
            · rw [if_neg hm, if_neg hm, ih]

/-- Lemma: if the first-failure combination of a code list is zero, every
code in the list is zero. -/
theorem firstNonzero_eq_zero (l : List Nat) (h : firstNonzero l = 0) : ∀ c ∈ l, c = 0 := by
  induction l with
  | nil => simp
  | cons c cs ih =>
      simp only [firstNonzero] at h
      split_ifs at h with hc
      · exact absurd h hc
      · intro x hx
        rcases List.mem_cons.mp hx with rfl | hx
        · exact not_not.mp hc
        · exact ih h x hx

/-- C5: the exit code of a parse is the first non-zero code among the
per-marker codes decoded during the walk, in stream order; it is zero
only when every decoded marker code is zero; with two or more submitted
command lines the pipefail-array fields of a marker are ignored (two
markers agreeing on their first four fields decode identically); and with
no submitted lines the code is 0 (no marker is ever decoded). -/
theorem C5_first_failure_wins (stdin : List String) (raw : String) (l1 l2 : String) :
    (parse stdin raw).2 = firstNonzero (markerCodes stdin (get_lines raw)) ∧
    ((parse stdin raw).2 = 0 → ∀ c ∈ markerCodes stdin (get_lines raw), c = 0) ∧
    (stdin.length ≥ 2 →
      (pySplitOnChar l1 '|').length = 6 → (pySplitOnChar l2 '|').length = 6 →
      (pySplitOnChar l1 '|').take 4 = (pySplitOnChar l2 '|').take 4 →
      get_code stdin l1 = get_code stdin l2) ∧
    (stdin = [] → (parse stdin raw).2 = 0) := by
  have hmain : (parse stdin raw).2 = firstNonzero (markerCodes stdin (get_lines raw)) := by
    simp only [parse, parseLines, markerCodes]
    rw [parseLoop_code]
    simp
  refine ⟨hmain, ?_, ?_, ?_⟩
  · intro h
    exact firstNonzero_eq_zero _ (hmain ▸ h)
  · intro hlen h1 h2 h4
    have hgt : stdin.length > 1 := by omega
    simp only [get_code, h4]
    split_ifs with a b b
    · exact absurd h1 a
    · exact absurd h1 a
    · exact absurd h2 b
    · cases hs : scanFirst4 ((pySplitOnChar l2 '|').take 4) <;> simp [hs, hgt]
  · intro h
    subst h
    unfold parse parseLines
    cases hg : get_lines raw with
    | nil => simp [parseLoop]
    | cons a as => simp [parseLoop]

/-- Witness for C5: the two-command stream whose first marker decodes to 1
and second to 0 yields overall code 1, and two six-field markers agreeing
on their first four fields decode identically under two submitted
lines. -/
theorem C5_first_failure_wins_witness :
    (parse ["false", "echo ok"]
      "false\n__exit_code__|1|1|1|1|1\necho ok\nok\n__exit_code__|0|0|0|0|0\nexit\n").2 = 1 ∧
    (["false", "echo ok"] : List String).length ≥ 2 ∧
    get_code ["false", "echo ok"] "__exit_code__|0|0|0|7 0|0" =
      get_code ["false", "echo ok"] "__exit_code__|0|0|0|9 9|9" := by
  have h := C5_first_failure_wins ["false", "echo ok"]
    "false\n__exit_code__|1|1|1|1|1\necho ok\nok\n__exit_code__|0|0|0|0|0\nexit\n"
    "__exit_code__|0|0|0|7 0|0" "__exit_code__|0|0|0|9 9|9"
  refine ⟨?_, by decide, h.2.2.1 (by decide) (by decide) (by decide) (by decide)⟩
  rw [h.1]
  decide
